import Mathlib

/-!
Shallow embedding of the c8 CHIP-8 interpreter core
(src/src/chip8/ram.rs and src/src/chip8/cpu.rs).

Machine integers (u8, u16) are modelled as Nat with an explicit reduction
modulo 2^8 or 2^16 at every operation where Rust wraps (release-mode
semantics, which is also what the design document calls "wraparound").
Array indexing out of bounds, an explicit Rust panic and the
unimplemented macro are modelled as Option.none; the two panic sites of
RAM.write are modelled as the two error constructors the design document
gives them.  The thread-local random generator is modelled as an oracle
field holding the next random value.
-/

namespace C8

/-- Error kinds of the memory write operation.  The source panics at two
distinct sites; the design document names them ProtectedRegionViolation
(write below 0x200) and OutOfBounds (address at or beyond 4096). -/
inductive WriteError where
  | ProtectedRegionViolation
  | OutOfBounds
deriving DecidableEq

/-- src/chip8/ram.rs: `pub struct RAM { memory: [u8; 4096] }`.
The 4096-byte array is a function from addresses to byte values; the
bound 4096 is enforced at each indexing site. -/
structure RAM where
  memory : Nat → Nat

/-- `RAM::new`: `RAM { memory: [0; 4096] }`. -/
def RAM.new : RAM := ⟨fun _ => 0⟩

/-- `RAM::read`: `return self.memory[addr];` — indexing panics when
`addr >= 4096`. -/
def RAM.read (r : RAM) (addr : Nat) : Option Nat :=
  if addr < 4096 then some (r.memory addr) else none

/-- `RAM::write`: panics with "invalid write" when `addr <= 0x1FF`,
then `self.memory[addr] = value` panics when `addr >= 4096`. -/
def RAM.write (r : RAM) (addr : Nat) (value : Nat) : Except WriteError RAM :=
  if addr ≤ 0x1FF then Except.error WriteError.ProtectedRegionViolation
  else if addr < 4096 then Except.ok ⟨Function.update r.memory addr value⟩
  else Except.error WriteError.OutOfBounds

/-- src/chip8/cpu.rs: `pub struct CPU`.  `stack: [u16; 16]` and
`v_reg: [u8; 16]` are functions from indices to values with the bound 16
enforced at each indexing site; `rng` is the oracle for ThreadRng. -/
structure CPU where
  stack : Nat → Nat
  v_reg : Nat → Nat
  i_reg : Nat
  delay_timer : Nat
  sound_timer : Nat
  program_counter : Nat
  stack_pointer : Nat
  rng : Nat
  ram : RAM

/-- `CPU::new`: every component is started at 0. -/
def CPU.new : CPU where
  stack := fun _ => 0
  v_reg := fun _ => 0
  i_reg := 0
  delay_timer := 0
  sound_timer := 0
  program_counter := 0
  stack_pointer := 0
  rng := 0
  ram := RAM.new

/-- `ret_subroutine`: `pc = stack[sp]; sp -= 1`.  Indexing the 16-entry
stack panics when `sp >= 16`; the u8 decrement wraps. -/
def ret_subroutine (c : CPU) : Option CPU :=
  if c.stack_pointer < 16 then
    some { c with
            program_counter := c.stack c.stack_pointer
            stack_pointer := (c.stack_pointer + 255) % 256 }
  else none

/-- `jmp_addr`: `pc = addr`. -/
def jmp_addr (c : CPU) (addr : Nat) : CPU :=
  { c with program_counter := addr }

/-- `call_subroutine`: `sp += 1; stack[sp] = pc; pc = addr`.  The u8
increment wraps; indexing the 16-entry stack panics when the new
`sp >= 16`. -/
def call_subroutine (c : CPU) (addr : Nat) : Option CPU :=
  let sp := (c.stack_pointer + 1) % 256
  if sp < 16 then
    some { c with
            stack_pointer := sp
            stack := Function.update c.stack sp c.program_counter
            program_counter := addr }
  else none

/-- `skip_eq_value`: `if v_reg[x] == value { pc += 2 }`. -/
def skip_eq_value (c : CPU) (x : Nat) (value : Nat) : Option CPU :=
  if x < 16 then
    some (if c.v_reg x = value then
            { c with program_counter := (c.program_counter + 2) % 65536 }
          else c)
  else none

/-- `skip_neq_value`: `if v_reg[x] != value { pc += 2 }`. -/
def skip_neq_value (c : CPU) (x : Nat) (value : Nat) : Option CPU :=
  if x < 16 then
    some (if c.v_reg x ≠ value then
            { c with program_counter := (c.program_counter + 2) % 65536 }
          else c)
  else none

/-- `skip_eq_xy`: `if v_reg[x] == v_reg[y] { pc += 2 }`. -/
def skip_eq_xy (c : CPU) (x : Nat) (y : Nat) : Option CPU :=
  if x < 16 ∧ y < 16 then
    some (if c.v_reg x = c.v_reg y then
            { c with program_counter := (c.program_counter + 2) % 65536 }
          else c)
  else none

/-- `set_x_value`: `v_reg[x] = value`. -/
def set_x_value (c : CPU) (x : Nat) (value : Nat) : Option CPU :=
  if x < 16 then
    some { c with v_reg := Function.update c.v_reg x value }
  else none

/-- `add_x_value`: `v_reg[x] += value` (u8, wraps). -/
def add_x_value (c : CPU) (x : Nat) (value : Nat) : Option CPU :=
  if x < 16 then
    some { c with v_reg := Function.update c.v_reg x ((c.v_reg x + value) % 256) }
  else none

/-- `store_xy`: `v_reg[x] = v_reg[y]`. -/
def store_xy (c : CPU) (x : Nat) (y : Nat) : Option CPU :=
  if x < 16 ∧ y < 16 then
    some { c with v_reg := Function.update c.v_reg x (c.v_reg y) }
  else none

/-- `or_xy`: `v_reg[x] |= v_reg[y]`. -/
def or_xy (c : CPU) (x : Nat) (y : Nat) : Option CPU :=
  if x < 16 ∧ y < 16 then
    some { c with v_reg := Function.update c.v_reg x (Nat.lor (c.v_reg x) (c.v_reg y)) }
  else none

/-- `and_xy`: `v_reg[x] &= v_reg[y]`. -/
def and_xy (c : CPU) (x : Nat) (y : Nat) : Option CPU :=
  if x < 16 ∧ y < 16 then
    some { c with v_reg := Function.update c.v_reg x (Nat.land (c.v_reg x) (c.v_reg y)) }
  else none

/-- `xor_xy`: `v_reg[x] ^= v_reg[y]`. -/
def xor_xy (c : CPU) (x : Nat) (y : Nat) : Option CPU :=
  if x < 16 ∧ y < 16 then
    some { c with v_reg := Function.update c.v_reg x (Nat.xor (c.v_reg x) (c.v_reg y)) }
  else none

/-- `add_xy`: `v = v_reg[x] as u16 + v_reg[y] as u16;
if v >> 8 != 0 { v_reg[0xF] = 1 } else { v_reg[0xF] = 0 };
v_reg[x] = (v & 0x00FF) as u8`.  Note the VF write happens before the
store into `v_reg[x]`. -/
def add_xy (c : CPU) (x : Nat) (y : Nat) : Option CPU :=
  if x < 16 ∧ y < 16 then
    let v := c.v_reg x + c.v_reg y
    let flagged := Function.update c.v_reg 15 (if v / 256 ≠ 0 then 1 else 0)
    some { c with v_reg := Function.update flagged x (v % 256) }
  else none

/-- `sub_xy`: `if v_reg[x] > v_reg[y] { v_reg[0xF] = 1 } else { v_reg[0xF] = 0 };
v_reg[x] -= v_reg[y]`.  The subtraction reads both registers after the
VF write and wraps (u8). -/
def sub_xy (c : CPU) (x : Nat) (y : Nat) : Option CPU :=
  if x < 16 ∧ y < 16 then
    let flagged := Function.update c.v_reg 15 (if c.v_reg y < c.v_reg x then 1 else 0)
    some { c with
            v_reg := Function.update flagged x
              ((flagged x % 256 + (256 - flagged y % 256)) % 256) }
  else none

/-- `shr_x`: `v_reg[0xF] = v_reg[x] & 0x1; v_reg[x] >>= 1`. -/
def shr_x (c : CPU) (x : Nat) : Option CPU :=
  if x < 16 then
    let flagged := Function.update c.v_reg 15 (c.v_reg x % 2)
    some { c with v_reg := Function.update flagged x (flagged x / 2) }
  else none

/-- `subn_xy`: `if v_reg[y] > v_reg[x] { v_reg[0xF] = 1 } else { v_reg[0xF] = 0 };
v_reg[x] = v_reg[y] - v_reg[x]` (u8, wraps, registers read after the VF
write). -/
def subn_xy (c : CPU) (x : Nat) (y : Nat) : Option CPU :=
  if x < 16 ∧ y < 16 then
    let flagged := Function.update c.v_reg 15 (if c.v_reg x < c.v_reg y then 1 else 0)
    some { c with
            v_reg := Function.update flagged x
              ((flagged y % 256 + (256 - flagged x % 256)) % 256) }
  else none

/-- `shl_x`: `v_reg[0xF] = v_reg[x] >> 7; v_reg[x] <<= 1` (u8, the shift
left wraps). -/
def shl_x (c : CPU) (x : Nat) : Option CPU :=
  if x < 16 then
    let flagged := Function.update c.v_reg 15 (c.v_reg x / 128)
    some { c with v_reg := Function.update flagged x (flagged x * 2 % 256) }
  else none

/-- `skip_neq_xy`: `if v_reg[x] != v_reg[y] { pc += 2 }`. -/
def skip_neq_xy (c : CPU) (x : Nat) (y : Nat) : Option CPU :=
  if x < 16 ∧ y < 16 then
    some (if c.v_reg x ≠ c.v_reg y then
            { c with program_counter := (c.program_counter + 2) % 65536 }
          else c)
  else none

/-- `set_i`: `i_reg = addr`. -/
def set_i (c : CPU) (addr : Nat) : CPU :=
  { c with i_reg := addr }

/-- `jmp_addr_offset`: `pc = addr + v_reg[0] as u16` (u16 addition). -/
def jmp_addr_offset (c : CPU) (addr : Nat) : CPU :=
  { c with program_counter := (addr + c.v_reg 0) % 65536 }

/-- `rnd_and`: `v_reg[x] = rng.gen::<u8>() & value`; the generated byte is
the oracle field reduced to a byte. -/
def rnd_and (c : CPU) (x : Nat) (value : Nat) : Option CPU :=
  if x < 16 then
    some { c with v_reg := Function.update c.v_reg x (Nat.land (c.rng % 256) value) }
  else none

/-- `draw`: the loop body is commented out in the source, so the function
only iterates an empty range and changes nothing. -/
def draw (c : CPU) (_x : Nat) (_y : Nat) (_n : Nat) : CPU := c

/-- `read_delay_timer`: `v_reg[x] = delay_timer`. -/
def read_delay_timer (c : CPU) (x : Nat) : Option CPU :=
  if x < 16 then
    some { c with v_reg := Function.update c.v_reg x c.delay_timer }
  else none

/-- `set_delay_timer`: `delay_timer = v_reg[x]`. -/
def set_delay_timer (c : CPU) (x : Nat) : Option CPU :=
  if x < 16 then some { c with delay_timer := c.v_reg x } else none

/-- `set_sound_timer`: `sound_timer = v_reg[x]`. -/
def set_sound_timer (c : CPU) (x : Nat) : Option CPU :=
  if x < 16 then some { c with sound_timer := c.v_reg x } else none

/-- `add_i`: `i_reg += v_reg[x] as u16` (u16, wraps). -/
def add_i (c : CPU) (x : Nat) : Option CPU :=
  if x < 16 then
    some { c with i_reg := (c.i_reg + c.v_reg x) % 65536 }
  else none

/-- `store_registers`: for idx in 0..=x, `ram.write(i_reg + idx, v_reg[idx])`;
a write panic or a register index at or beyond 16 aborts. -/
def store_registers (c : CPU) (x : Nat) : Option CPU :=
  (List.range (x + 1)).foldlM
    (fun cc idx =>
      if idx < 16 then
        match RAM.write cc.ram (cc.i_reg + idx) (cc.v_reg idx) with
        | Except.ok r => some { cc with ram := r }
        | Except.error _ => none
      else none)
    c

/-- `read_registers`: for idx in 0..=x, `v_reg[idx] = ram.read(i_reg + idx)`;
a read panic or a register index at or beyond 16 aborts. -/
def read_registers (c : CPU) (x : Nat) : Option CPU :=
  (List.range (x + 1)).foldlM
    (fun cc idx =>
      if idx < 16 then
        match RAM.read cc.ram (cc.i_reg + idx) with
        | some b => some { cc with v_reg := Function.update cc.v_reg idx b }
        | none => none
      else none)
    c

/-- `cycle`: splits the opcode into the four nibbles
`op_1 = (opcode & 0xF000) >> 12`, `op_2 = (opcode & 0x0F00) >> 8`,
`op_3 = (opcode & 0x00F0) >> 4`, `op_4 = opcode & 0x000F`, and dispatches.
Note that the address and byte immediates are built by OR-ing the
already-shifted nibbles (`op_2 | op_3 | op_4`, `(op_3 | op_4) as u8`),
exactly as the source does.  Unimplemented handlers and the
unknown-instruction panic are none. -/
def cycle (c : CPU) (opcode : Nat) : Option CPU :=
  let op_1 := opcode / 4096 % 16
  let op_2 := opcode / 256 % 16
  let op_3 := opcode / 16 % 16
  let op_4 := opcode % 16
  match op_1, op_2, op_3, op_4 with
  | 0x0, 0x0, 0xE, 0x0 => some c
  | 0x0, 0x0, 0xE, 0xE => ret_subroutine c
  | 0x1, _, _, _ => some (jmp_addr c (Nat.lor (Nat.lor op_2 op_3) op_4))
  | 0x2, _, _, _ => call_subroutine c (Nat.lor (Nat.lor op_2 op_3) op_4)
  | 0x3, x, _, _ => skip_eq_value c x (Nat.lor op_3 op_4 % 256)
  | 0x4, x, _, _ => skip_neq_value c x (Nat.lor op_3 op_4 % 256)
  | 0x5, x, y, 0x0 => skip_eq_xy c x y
  | 0x6, x, _, _ => set_x_value c x (Nat.lor op_3 op_4 % 256)
  | 0x7, x, _, _ => add_x_value c x (Nat.lor op_3 op_4 % 256)
  | 0x8, x, y, 0x0 => store_xy c x y
  | 0x8, x, y, 0x1 => or_xy c x y
  | 0x8, x, y, 0x2 => and_xy c x y
  | 0x8, x, y, 0x3 => xor_xy c x y
  | 0x8, x, y, 0x4 => add_xy c x y
  | 0x8, x, y, 0x5 => sub_xy c x y
  | 0x8, x, _, 0x6 => shr_x c x
  | 0x8, x, y, 0x7 => subn_xy c x y
  | 0x8, x, _, 0xE => shl_x c x
  | 0x9, x, y, 0x0 => skip_neq_xy c x y
  | 0xA, _, _, _ => some (set_i c (Nat.lor (Nat.lor op_2 op_3) op_4))
  | 0xB, _, _, _ => some (jmp_addr_offset c (Nat.lor (Nat.lor op_2 op_3) op_4))
  | 0xC, x, _, _ => rnd_and c x (Nat.lor op_3 op_4 % 256)
  | 0xD, x, y, n => some (draw c x y n)
  | 0xE, _, 0x9, 0xE => none
  | 0xE, _, 0xA, 0x1 => none
  | 0xF, x, 0x0, 0x7 => read_delay_timer c x
  | 0xF, _, 0x0, 0xA => none
  | 0xF, x, 0x1, 0x5 => set_delay_timer c x
  | 0xF, x, 0x1, 0x8 => set_sound_timer c x
  | 0xF, x, 0x1, 0xE => add_i c x
  | 0xF, _, 0x2, 0x9 => none
  | 0xF, _, 0x3, 0x3 => none
  | 0xF, x, 0x5, 0x5 => store_registers c x
  | 0xF, x, 0x6, 0x5 => read_registers c x
  | _, _, _, _ => none

/-- n nested subroutine calls to address 0x200, starting from c. -/
def callN : Nat → CPU → Option CPU
  | 0, c => some c
  | n + 1, c => (call_subroutine c 0x200).bind (callN n)

/-- Fresh CPU with V0 = 7. -/
def cpuV0seven : CPU := { CPU.new with v_reg := Function.update CPU.new.v_reg 0 7 }

/-- Fresh CPU with V0 = 3 and VF = 5. -/
def cexSub : CPU :=
  { CPU.new with v_reg := Function.update (Function.update CPU.new.v_reg 0 3) 15 5 }

/-- Fresh CPU with V0 = 100 and VF = 200. -/
def cexAdd : CPU :=
  { CPU.new with v_reg := Function.update (Function.update CPU.new.v_reg 0 100) 15 200 }

/-- Fresh CPU with V0 = 5 and V1 = 10. -/
def wSub : CPU :=
  { CPU.new with v_reg := Function.update (Function.update CPU.new.v_reg 0 5) 1 10 }

/-- Fresh CPU with V0 = 250 and V1 = 10. -/
def wAdd : CPU :=
  { CPU.new with v_reg := Function.update (Function.update CPU.new.v_reg 0 250) 1 10 }

/-- Fresh CPU with VF = 250 and V1 = 10. -/
def wAddF : CPU :=
  { CPU.new with v_reg := Function.update (Function.update CPU.new.v_reg 15 250) 1 10 }

/-- The result r of a conditional-skip operation on state c is a state
that differs from c at most in the program counter, which is either
unchanged or advanced by 2 (as a 16-bit register). -/
def SkipOk (c : CPU) (r : Option CPU) : Prop :=
  ∃ c2, r = some c2
    ∧ c2.v_reg = c.v_reg ∧ c2.i_reg = c.i_reg
    ∧ c2.delay_timer = c.delay_timer ∧ c2.sound_timer = c.sound_timer
    ∧ c2.stack = c.stack ∧ c2.stack_pointer = c.stack_pointer
    ∧ c2.ram = c.ram
    ∧ (c2.program_counter = c.program_counter
        ∨ c2.program_counter = (c.program_counter + 2) % 65536)

/-- C1: the claim says the decoder derives kk as the low 8 bits and addr
as the low 12 bits of the opcode word, so that 0x1234 jumps to 0x234 and
0x3034 compares Vx with 0x34.  The source instead ORs the
already-shifted nibbles: 0x1234 sets the program counter to
2 OR 3 OR 4 = 7, not 0x234, and 0x3034 compares V0 with 3 OR 4 = 7, so
with V0 = 7 the skip is taken even though V0 is not 0x34.  This
contradicts the documented jump semantics and every CHIP-8 description:
the code is a slip (the nibbles are ORed without reassembling their bit
positions). -/
theorem C1_decode_immediates_bug :
    (cycle CPU.new 0x1234).map CPU.program_counter = some 7
    ∧ (0x1234 : Nat) % 4096 = 0x234
    ∧ (7 : Nat) ≠ 0x234
    ∧ (cycle cpuV0seven 0x3034).map CPU.program_counter = some 2
    ∧ cpuV0seven.v_reg 0 = 7
    ∧ (7 : Nat) ≠ 0x3034 % 256 := by decide

/-- C2 counterexample: the freshly constructed CPU does not have its
program counter at 0x200, refuting the claim as stated. -/
theorem C2_counterexample : CPU.new.program_counter ≠ 0x200 := by decide

/-- C2 (amended): when a CPU is constructed, the program counter starts
at 0, as the constructor comment in the source says (every component is
started at 0). -/
theorem C2_pc_starts_at_zero : CPU.new.program_counter = 0 := rfl

/-- C3 counterexample: starting from a freshly constructed CPU, the 16th
nested subroutine call already fails (the pre-incremented stack pointer
reaches 16 and indexing the 16-entry stack panics), refuting the claim
that 16 nested calls all succeed. -/
theorem C3_counterexample : (callN 16 CPU.new).isSome = false := by decide

/-- C3 (amended): starting from a freshly constructed CPU, 15 nested
subroutine calls succeed and the 16th fails.  Because the source
pre-increments the stack pointer before storing, slot 0 of the 16-entry
stack is never used; the failure is an out-of-bounds stack index, and no
StackOverflow error value exists anywhere in the source. -/
theorem C3_fifteen_calls :
    (callN 15 CPU.new).isSome = true ∧ (callN 16 CPU.new).isSome = false := by decide

/-- C4 counterexample: with VF = 5 and V0 = 3, executing 8xy5 at x = 0xF,
y = 0 leaves 254 in VF, although Vx = 5 is greater than Vy = 3, so the
claimed final flag value 1 (and the claimed difference 2) both fail: the
borrow flag written to VF is the minuend of the subtraction that
follows. -/
theorem C4_counterexample :
    cexSub.v_reg 0 < cexSub.v_reg 15
    ∧ (sub_xy cexSub 15 0).map (fun c2 => c2.v_reg 15) = some 254
    ∧ (254 : Nat) ≠ 1 ∧ (254 : Nat) ≠ 2 := by decide

/-- C4 (amended): for register indices x and y that are both distinct
from 0xF, executing 8xy5 sets VF to 1 exactly when Vx is greater than Vy
and sets Vx to Vx minus Vy with 8-bit wraparound; when x or y is 0xF the
flag write aliases an operand of the subtraction and the stated relation
fails. -/
theorem C4_sub_xy_flag_wrap (c : CPU) (x y : Nat)
    (hx : x < 16) (hy : y < 16) (hxF : x ≠ 15) (hyF : y ≠ 15)
    (hvx : c.v_reg x < 256) (hvy : c.v_reg y < 256) :
    (sub_xy c x y).map (fun c2 => (c2.v_reg 15, c2.v_reg x))
      = some ((if c.v_reg y < c.v_reg x then 1 else 0),
              (c.v_reg x + 256 - c.v_reg y) % 256) := by
  unfold sub_xy
  rw [if_pos ⟨hx, hy⟩]
  simp only [Option.map_some']
  rw [Function.update_same, Function.update_noteq (Ne.symm hxF),
      Function.update_same, Function.update_noteq hxF, Function.update_noteq hyF]
  congr 1
  rw [Nat.mod_eq_of_lt hvx, Nat.mod_eq_of_lt hvy]
  congr 1
  omega

/-- C4 witness: with Vx = 5 and Vy = 10 in non-aliasing registers the
amended statement yields VF = 0 and Vx = 251. -/
theorem C4_witness :
    wSub.v_reg 1 < 256
    ∧ (sub_xy wSub 0 1).map (fun c2 => (c2.v_reg 15, c2.v_reg 0)) = some (0, 251) :=
  ⟨by decide,
    (C4_sub_xy_flag_wrap wSub 0 1 (by decide) (by decide) (by decide) (by decide)
      (by decide) (by decide)).trans (by decide)⟩

/-- C5: the memory write fails with ProtectedRegionViolation for every
address below 0x200, fails with OutOfBounds for every address at or
beyond 4096, and succeeds for every address in between, for every byte
value. -/
theorem C5_ram_write_guards (r : RAM) (addr value : Nat) :
    (addr < 0x200 → RAM.write r addr value = Except.error WriteError.ProtectedRegionViolation)
    ∧ (0x200 ≤ addr → 4096 ≤ addr → RAM.write r addr value = Except.error WriteError.OutOfBounds)
    ∧ (0x200 ≤ addr → addr < 4096 → ∃ r2, RAM.write r addr value = Except.ok r2) := by
  unfold RAM.write
  refine ⟨fun h => ?_, fun h1 h2 => ?_, fun h1 h2 => ?_⟩
  · rw [if_pos (by omega)]
  · rw [if_neg (by omega), if_neg (by omega)]
  · rw [if_neg (by omega), if_pos h2]
    exact ⟨_, rfl⟩

/-- C5 witness: writing to address 0x000 fails with
ProtectedRegionViolation and writing to address 0x200 succeeds. -/
theorem C5_witness :
    RAM.write RAM.new 0 0 = Except.error WriteError.ProtectedRegionViolation
    ∧ ∃ r2, RAM.write RAM.new 0x200 7 = Except.ok r2 :=
  ⟨(C5_ram_write_guards RAM.new 0 0).1 (by decide),
    (C5_ram_write_guards RAM.new 0x200 7).2.2 (by decide) (by decide)⟩

/-- C6: from any state whose stack is not at capacity (the pushed slot
index stays within the 16-entry stack), a subroutine call followed by a
return restores the program counter to its pre-call value and the stack
pointer to its pre-call depth. -/
theorem C6_call_ret_balance (c : CPU) (addr : Nat) (h : c.stack_pointer < 15) :
    ∃ c1 c2, call_subroutine c addr = some c1 ∧ ret_subroutine c1 = some c2
      ∧ c2.program_counter = c.program_counter
      ∧ c2.stack_pointer = c.stack_pointer := by
  have hsp : (c.stack_pointer + 1) % 256 = c.stack_pointer + 1 := Nat.mod_eq_of_lt (by omega)
  have h1 : call_subroutine c addr = some
      { c with
          stack := Function.update c.stack (c.stack_pointer + 1) c.program_counter
          program_counter := addr
          stack_pointer := c.stack_pointer + 1 } := by
    unfold call_subroutine
    simp only [hsp]
    rw [if_pos (by omega : c.stack_pointer + 1 < 16)]
  have h2 : ret_subroutine
      { c with
          stack := Function.update c.stack (c.stack_pointer + 1) c.program_counter
          program_counter := addr
          stack_pointer := c.stack_pointer + 1 } = some
      { c with
          stack := Function.update c.stack (c.stack_pointer + 1) c.program_counter
          program_counter :=
            Function.update c.stack (c.stack_pointer + 1) c.program_counter (c.stack_pointer + 1)
          stack_pointer := (c.stack_pointer + 1 + 255) % 256 } := by
    unfold ret_subroutine
    rw [if_pos (show c.stack_pointer + 1 < 16 by omega)]
  refine ⟨_, _, h1, h2, ?_, ?_⟩
  · exact Function.update_same _ _ _
  · show (c.stack_pointer + 1 + 255) % 256 = c.stack_pointer
    omega

/-- C6 witness: calling 0x300 from the fresh CPU and returning restores
the program counter and the stack pointer. -/
theorem C6_witness :
    CPU.new.stack_pointer < 15
    ∧ ∃ c1 c2, call_subroutine CPU.new 0x300 = some c1 ∧ ret_subroutine c1 = some c2
        ∧ c2.program_counter = CPU.new.program_counter
        ∧ c2.stack_pointer = CPU.new.stack_pointer :=
  ⟨by decide, C6_call_ret_balance CPU.new 0x300 (by decide)⟩

/-- C7 counterexample: with x = 0xF (VF = 200, V0 = 100, sum 300 over
255), executing 8xy4 leaves 44 in VF rather than the carry flag 1, so
the claim quantified over all register pairs fails at x = 0xF. -/
theorem C7_counterexample :
    255 < cexAdd.v_reg 15 + cexAdd.v_reg 0
    ∧ (add_xy cexAdd 15 0).map (fun c2 => c2.v_reg 15) = some 44
    ∧ (44 : Nat) ≠ 1 := by decide

/-- C7 (amended): for a destination register x distinct from 0xF,
executing 8xy4 sets VF to 1 exactly when the widened sum of Vx and Vy
exceeds 255 and stores the low 8 bits of that sum in Vx; when x = 0xF
the stored sum overwrites the carry flag. -/
theorem C7_add_xy_carry (c : CPU) (x y : Nat)
    (hx : x < 16) (hy : y < 16) (hxF : x ≠ 15) :
    (add_xy c x y).map (fun c2 => (c2.v_reg 15, c2.v_reg x))
      = some ((if 255 < c.v_reg x + c.v_reg y then 1 else 0),
              (c.v_reg x + c.v_reg y) % 256) := by
  unfold add_xy
  rw [if_pos ⟨hx, hy⟩]
  simp only [Option.map_some']
  rw [Function.update_same, Function.update_noteq (Ne.symm hxF), Function.update_same]
  by_cases hv : 255 < c.v_reg x + c.v_reg y
  · rw [if_pos hv, if_pos (by omega : (c.v_reg x + c.v_reg y) / 256 ≠ 0)]
  · rw [if_neg hv, if_neg (by omega : ¬(c.v_reg x + c.v_reg y) / 256 ≠ 0)]

/-- C7 witness: Vx = 250, Vy = 10 in non-aliasing registers yields
Vx = 4 and VF = 1. -/
theorem C7_witness :
    (0 : Nat) ≠ 15
    ∧ (add_xy wAdd 0 1).map (fun c2 => (c2.v_reg 15, c2.v_reg 0)) = some (1, 4) :=
  ⟨by decide,
    (C7_add_xy_carry wAdd 0 1 (by decide) (by decide) (by decide)).trans (by decide)⟩

/-- C8: when 8xy4 executes with x = 0xF, the final value of VF is the
low 8 bits of the widened sum of the old VF and Vy: the carry written to
VF first is then overwritten by the stored sum. -/
theorem C8_add_xy_vf_overwrite (c : CPU) (y : Nat) (hy : y < 16) :
    (add_xy c 15 y).map (fun c2 => c2.v_reg 15)
      = some ((c.v_reg 15 + c.v_reg y) % 256) := by
  unfold add_xy
  rw [if_pos ⟨by omega, hy⟩]
  simp only [Option.map_some']
  rw [Function.update_same]

/-- C8 witness: VF = 250, V1 = 10 gives final VF = 4, the low byte of
260, not the carry flag 1. -/
theorem C8_witness :
    (1 : Nat) < 16
    ∧ (add_xy wAddF 15 1).map (fun c2 => c2.v_reg 15) = some 4 :=
  ⟨by decide, (C8_add_xy_vf_overwrite wAddF 1 (by decide)).trans (by decide)⟩

/-- C9: for every starting state, whenever a subroutine call succeeds it
leaves the general registers, the I register, both timers and all of
memory unchanged, and whenever a return succeeds it leaves those and
additionally the stack contents unchanged.  The two conclusions are
conditioned independently, each only on its own operation succeeding. -/
theorem C9_call_ret_frame (c : CPU) (addr : Nat) :
    ((call_subroutine c addr).isSome = true →
      (call_subroutine c addr).map CPU.v_reg = some c.v_reg
      ∧ (call_subroutine c addr).map CPU.i_reg = some c.i_reg
      ∧ (call_subroutine c addr).map CPU.delay_timer = some c.delay_timer
      ∧ (call_subroutine c addr).map CPU.sound_timer = some c.sound_timer
      ∧ (call_subroutine c addr).map CPU.ram = some c.ram)
    ∧ ((ret_subroutine c).isSome = true →
      (ret_subroutine c).map CPU.v_reg = some c.v_reg
      ∧ (ret_subroutine c).map CPU.i_reg = some c.i_reg
      ∧ (ret_subroutine c).map CPU.delay_timer = some c.delay_timer
      ∧ (ret_subroutine c).map CPU.sound_timer = some c.sound_timer
      ∧ (ret_subroutine c).map CPU.stack = some c.stack
      ∧ (ret_subroutine c).map CPU.ram = some c.ram) := by
  constructor
  · intro hc
    by_cases h : (c.stack_pointer + 1) % 256 < 16
    · simp [call_subroutine, h]
    · simp [call_subroutine, h] at hc
  · intro hr
    by_cases h : c.stack_pointer < 16
    · simp [ret_subroutine, h]
    · simp [ret_subroutine, h] at hr

/-- C9 witness: both operations succeed on the fresh CPU and preserve
every frame component. -/
theorem C9_witness :
    ((call_subroutine CPU.new 0x300).isSome = true
      ∧ (call_subroutine CPU.new 0x300).map CPU.v_reg = some CPU.new.v_reg
      ∧ (call_subroutine CPU.new 0x300).map CPU.i_reg = some CPU.new.i_reg
      ∧ (call_subroutine CPU.new 0x300).map CPU.delay_timer = some CPU.new.delay_timer
      ∧ (call_subroutine CPU.new 0x300).map CPU.sound_timer = some CPU.new.sound_timer
      ∧ (call_subroutine CPU.new 0x300).map CPU.ram = some CPU.new.ram)
    ∧ ((ret_subroutine CPU.new).isSome = true
      ∧ (ret_subroutine CPU.new).map CPU.v_reg = some CPU.new.v_reg
      ∧ (ret_subroutine CPU.new).map CPU.i_reg = some CPU.new.i_reg
      ∧ (ret_subroutine CPU.new).map CPU.delay_timer = some CPU.new.delay_timer
      ∧ (ret_subroutine CPU.new).map CPU.sound_timer = some CPU.new.sound_timer
      ∧ (ret_subroutine CPU.new).map CPU.stack = some CPU.new.stack
      ∧ (ret_subroutine CPU.new).map CPU.ram = some CPU.new.ram) :=
  ⟨⟨by decide, (C9_call_ret_frame CPU.new 0x300).1 (by decide)⟩,
    ⟨by decide, (C9_call_ret_frame CPU.new 0x300).2 (by decide)⟩⟩

/-- C10: each of the four conditional-skip operations (opcodes 3xkk,
4xkk, 5xy0, 9xy0) leaves every register, both timers, the stack, the
stack pointer and memory unchanged, and leaves the program counter
either unchanged or advanced by exactly 2 (as the 16-bit register it
is). -/
theorem C10_skip_frame (c : CPU) (x y value : Nat) (hx : x < 16) (hy : y < 16) :
    SkipOk c (skip_eq_value c x value) ∧ SkipOk c (skip_neq_value c x value)
    ∧ SkipOk c (skip_eq_xy c x y) ∧ SkipOk c (skip_neq_xy c x y) := by
  refine ⟨?_, ?_, ?_, ?_⟩
  · unfold SkipOk skip_eq_value
    rw [if_pos hx]
    by_cases h : c.v_reg x = value
    · exact ⟨{ c with program_counter := (c.program_counter + 2) % 65536 },
        by rw [if_pos h], rfl, rfl, rfl, rfl, rfl, rfl, rfl, Or.inr rfl⟩
    · exact ⟨c, by rw [if_neg h], rfl, rfl, rfl, rfl, rfl, rfl, rfl, Or.inl rfl⟩
  · unfold SkipOk skip_neq_value
    rw [if_pos hx]
    by_cases h : c.v_reg x ≠ value
    · exact ⟨{ c with program_counter := (c.program_counter + 2) % 65536 },
        by rw [if_pos h], rfl, rfl, rfl, rfl, rfl, rfl, rfl, Or.inr rfl⟩
    · exact ⟨c, by rw [if_neg h], rfl, rfl, rfl, rfl, rfl, rfl, rfl, Or.inl rfl⟩
  · unfold SkipOk skip_eq_xy
    rw [if_pos ⟨hx, hy⟩]
    by_cases h : c.v_reg x = c.v_reg y
    · exact ⟨{ c with program_counter := (c.program_counter + 2) % 65536 },
        by rw [if_pos h], rfl, rfl, rfl, rfl, rfl, rfl, rfl, Or.inr rfl⟩
    · exact ⟨c, by rw [if_neg h], rfl, rfl, rfl, rfl, rfl, rfl, rfl, Or.inl rfl⟩
  · unfold SkipOk skip_neq_xy
    rw [if_pos ⟨hx, hy⟩]
    by_cases h : c.v_reg x ≠ c.v_reg y
    · exact ⟨{ c with program_counter := (c.program_counter + 2) % 65536 },
        by rw [if_pos h], rfl, rfl, rfl, rfl, rfl, rfl, rfl, Or.inr rfl⟩
    · exact ⟨c, by rw [if_neg h], rfl, rfl, rfl, rfl, rfl, rfl, rfl, Or.inl rfl⟩

/-- C10 witness: on the fresh CPU with x = 0, y = 1, value 5, all four
skip operations satisfy the frame property. -/
theorem C10_witness :
    (0 : Nat) < 16 ∧ (1 : Nat) < 16
    ∧ SkipOk CPU.new (skip_eq_value CPU.new 0 5)
    ∧ SkipOk CPU.new (skip_neq_value CPU.new 0 5)
    ∧ SkipOk CPU.new (skip_eq_xy CPU.new 0 1)
    ∧ SkipOk CPU.new (skip_neq_xy CPU.new 0 1) :=
  ⟨by decide, by decide, C10_skip_frame CPU.new 0 1 5 (by decide) (by decide)⟩

end C8
